import Mathlib

/-!
Verification of the core logic of `src/App.tsx` (clap-triggered alert app).

The stateful React component is embedded shallowly: the `useState`/`useRef`
cells become fields of explicit state records, each handler becomes a pure
function on those records, and environment inputs (clock readings, random
draws, the JPEG encoder, the transport outcome) become explicit parameters.
All definitions are transcribed from the source; quantities that the source
keeps as floating-point numbers with exactly two decimals (the JPEG quality
sweep 0.82, 0.78, step 0.12, floor 0.35) are represented in integer
hundredths, which the source's `parseFloat((q - step).toFixed(2))` keeps
exact.
-/

/-- `MAX_EMAILJS_VARIABLE_SIZE_BYTES`: hard transport payload limit (bytes). -/
def MAX_EMAILJS_VARIABLE_SIZE_BYTES : Nat := 50 * 1024

/-- `sizeSafetyMarginBytes` in `compressCanvasToBase64`. -/
def sizeSafetyMarginBytes : Nat := 5 * 1024

/-- `Math.ceil((base64.length * 3) / 4)`: approximate decoded size of a
base64 payload of the given length. -/
def approxBytesOf (base64Length : Nat) : Nat := (base64Length * 3 + 3) / 4

/-- Error message thrown when the shrink loop exhausts the dimension floor. -/
def tooLargeMsg : String :=
  "screenshot is too large to send via email. try reducing the camera resolution."

/-- The inner `while (currentQuality >= minQuality)` sweep of
`compressCanvasToBase64`.  `enc w h q` is the length of the base64 string the
canvas encoder produces at dimensions `w x h` and quality `q` (in hundredths;
`minQuality = 0.35`, `qualityStep = 0.12`).  Returns the approximate decoded
byte size of the first encoding that fits the budget, or `none` when the
sweep exhausts the quality floor. -/
def qualitySweep (enc : Nat → Nat → Nat → Nat) (w h q : Nat) : Option Nat :=
  if hq : 35 ≤ q then
    let bytes := approxBytesOf (enc w h q)
    if bytes ≤ MAX_EMAILJS_VARIABLE_SIZE_BYTES - sizeSafetyMarginBytes then some bytes
    else qualitySweep enc w h (q - 12)
  else none
termination_by q
decreasing_by omega

/-- `compressCanvasToBase64`: the two-level search (quality sweep nested in a
0.85 dimension shrink with a 240x180 floor).  The entry point of the source
starts at quality 0.82 (`q = 82`); each shrink restarts the sweep at 0.78.
`Math.floor(w * 0.85)` is `w * 17 / 20` in exact arithmetic. -/
def compressCanvasToBase64 (enc : Nat → Nat → Nat → Nat) (w h q : Nat) : Except String Nat :=
  match qualitySweep enc w h q with
  | some bytes => .ok bytes
  | none =>
    let nextWidth := w * 17 / 20
    let nextHeight := h * 17 / 20
    if nextWidth < 240 ∨ nextHeight < 180 then .error tooLargeMsg
    else compressCanvasToBase64 enc nextWidth nextHeight 78
termination_by w
decreasing_by
  rename_i hlt
  omega

theorem qualitySweep_le (enc : Nat → Nat → Nat → Nat) :
    ∀ q w h n, qualitySweep enc w h q = some n →
      n ≤ MAX_EMAILJS_VARIABLE_SIZE_BYTES - sizeSafetyMarginBytes := by
  intro q
  induction q using Nat.strong_induction_on with
  | _ q ih =>
    intro w h n hsome
    unfold qualitySweep at hsome
    split at hsome
    · dsimp only at hsome
      split at hsome
      · rename_i hle
        cases hsome
        exact hle
      · rename_i hq _
        exact ih (q - 12) (by omega) w h n hsome
    · cases hsome

/-- C7: For every input canvas, the compression pipeline terminates: it
either returns a payload whose approximate decoded size is at most the 50 KiB
transport limit minus the 5 KiB safety margin, or, once the shrink loop
reaches dimensions below the 240x180 floor without meeting the budget, fails
with the "too large" error; it never loops forever (the function is total and
every run ends in one of the two outcomes). -/
theorem compressCanvasToBase64_terminates_within_budget (enc : Nat → Nat → Nat → Nat) :
    ∀ w h q, (∃ n, compressCanvasToBase64 enc w h q = .ok n ∧
        n ≤ MAX_EMAILJS_VARIABLE_SIZE_BYTES - sizeSafetyMarginBytes) ∨
      compressCanvasToBase64 enc w h q = .error tooLargeMsg := by
  intro w
  induction w using Nat.strong_induction_on with
  | _ w ih =>
    intro h q
    unfold compressCanvasToBase64
    cases hqs : qualitySweep enc w h q with
    | some n =>
      exact Or.inl ⟨n, rfl, qualitySweep_le enc q w h n hqs⟩
    | none =>
      dsimp only
      split
      · exact Or.inr rfl
      · rename_i hfloor
        exact ih (w * 17 / 20) (by omega) (h * 17 / 20) 78

/-- `MAX_SCREENSHOT_WIDTH`. -/
def MAX_SCREENSHOT_WIDTH : Nat := 560

/-- `MAX_SCREENSHOT_HEIGHT`. -/
def MAX_SCREENSHOT_HEIGHT : Nat := 420

/-- `Math.round` on nonnegative values: round half up. -/
def jsRound (q : ℚ) : ℤ := ⌊q + 1 / 2⌋

/-- `emailCooldownMs = 10000`: 10 seconds cooldown for sending emails. -/
def emailCooldownMs : Nat := 10000

/-- Environment of one `sendAlertEmail` run: the camera feed geometry, the
canvas 2d context availability, the canvas JPEG encoder (base64 length as a
function of width, height, quality in hundredths), and the outcome of the
`Promise.all(recipients.map(emailjs.send ...))` batch. -/
structure SendEnv where
  videoPresent : Bool
  videoWidth : Nat
  videoHeight : Nat
  ctxOk : Bool
  enc : Nat → Nat → Nat → Nat
  transportOk : Bool
  transportErrMsg : String

/-- `scale = Math.min(1, widthRatio, heightRatio)` in `sendAlertEmail`. -/
def scaleOf (env : SendEnv) : ℚ :=
  min 1 (min ((MAX_SCREENSHOT_WIDTH : ℚ) / env.videoWidth)
    ((MAX_SCREENSHOT_HEIGHT : ℚ) / env.videoHeight))

/-- `targetWidth = Math.round(videoWidth * scale)`. -/
def targetWidthOf (env : SendEnv) : Nat :=
  (jsRound ((env.videoWidth : ℚ) * scaleOf env)).toNat

/-- `targetHeight = Math.round(videoHeight * scale)`. -/
def targetHeightOf (env : SendEnv) : Nat :=
  (jsRound ((env.videoHeight : ℚ) * scaleOf env)).toNat

/-- The email-related `useState`/`useRef` cells of the component. -/
structure EmailState where
  emails : List String
  emailError : Option String
  showEmailSentNotification : Bool
  isSending : Bool
  emailInProgress : Bool
  lastEmailSendTime : Nat
deriving DecidableEq

/-- Instrumentation of one `sendAlertEmail` run: how many transport batches
were dispatched (the single `Promise.all` counts as one), and whether the run
reached its success path. -/
structure SendResult where
  transportCalls : Nat
  succeeded : Bool
deriving DecidableEq

/-- The cooldown warning, with `Math.ceil` rendered as exact Nat arithmetic. -/
def cooldownMsg (now last : Nat) : String :=
  s!"please wait {(emailCooldownMs - (now - last) + 999) / 1000} seconds before sending another email."

/-- `err instanceof Error && err.message ? err.message : <generic>`: the
thrown errors of the embedded pipeline are strings, empty when messageless. -/
def jsErrorMessage (msg : String) : String :=
  if msg = "" then "failed to send email via emailjs." else msg

/-- `sendAlertEmail`.  The source sets `isSending`/`emailInProgressRef` to
`true` on entering the `try` block and clears both in the `finally` clause;
the embedding records the values each exit path leaves behind once the run
returns, which is `false` on every path through the `try` block. -/
def sendAlertEmail (env : SendEnv) (now : Nat) (suppressCooldownWarning : Bool)
    (st : EmailState) : EmailState × SendResult :=
  if st.emailInProgress then (st, ⟨0, false⟩)
  else if now - st.lastEmailSendTime < emailCooldownMs then
    (if suppressCooldownWarning then st
     else { st with emailError := some (cooldownMsg now st.lastEmailSendTime) }, ⟨0, false⟩)
  else
    let st1 : EmailState := { st with emailError := none }
    if env.videoPresent = false ∨ env.videoWidth = 0 ∨ env.videoHeight = 0 then
      ({ st1 with emailError := some "camera is not active or video feed is not ready." }, ⟨0, false⟩)
    else if st1.emails.length = 0 then
      ({ st1 with emailError := some "no email recipients added." }, ⟨0, false⟩)
    else if env.ctxOk = false then
      ({ st1 with emailError := some "could not get canvas context for image capture." }, ⟨0, false⟩)
    else
      match compressCanvasToBase64 env.enc (targetWidthOf env) (targetHeightOf env) 82 with
      | .error e =>
        ({ st1 with emailError := some (jsErrorMessage e),
                    isSending := false, emailInProgress := false }, ⟨0, false⟩)
      | .ok _ =>
        if env.transportOk then
          ({ st1 with showEmailSentNotification := true, lastEmailSendTime := now,
                      isSending := false, emailInProgress := false }, ⟨1, true⟩)
        else
          ({ st1 with emailError := some (jsErrorMessage env.transportErrMsg),
                      isSending := false, emailInProgress := false }, ⟨1, false⟩)

theorem sendAlertEmail_success_marks_cooldown (env : SendEnv) (now : Nat) (sup : Bool)
    (st : EmailState) (h : (sendAlertEmail env now sup st).2.succeeded = true) :
    (sendAlertEmail env now sup st).1.lastEmailSendTime = now ∧
    (sendAlertEmail env now sup st).1.emailInProgress = false := by
  by_cases h1 : st.emailInProgress
  · simp [sendAlertEmail, h1] at h
  · by_cases h2 : now - st.lastEmailSendTime < emailCooldownMs
    · simp [sendAlertEmail, h1, h2] at h
    · by_cases h3 : env.videoPresent = false ∨ env.videoWidth = 0 ∨ env.videoHeight = 0
      · simp [sendAlertEmail, h1, h2, h3] at h
      · by_cases h4 : st.emails.length = 0
        · simp [sendAlertEmail, h1, h2, h3, h4] at h
        · by_cases h5 : env.ctxOk = false
          · simp [sendAlertEmail, h1, h2, h3, h4, h5] at h
          · cases hc : compressCanvasToBase64 env.enc (targetWidthOf env) (targetHeightOf env) 82 with
            | error e => simp [sendAlertEmail, h1, h2, h3, h4, h5, hc] at h
            | ok n =>
              by_cases h6 : env.transportOk
              · simp [sendAlertEmail, h1, h2, h3, h4, h5, hc, h6]
              · simp [sendAlertEmail, h1, h2, h3, h4, h5, hc, h6] at h

theorem sendAlertEmail_failure_keeps_cooldown (env : SendEnv) (now : Nat) (sup : Bool)
    (st : EmailState) (h : (sendAlertEmail env now sup st).2.succeeded = false) :
    (sendAlertEmail env now sup st).1.lastEmailSendTime = st.lastEmailSendTime := by
  by_cases h1 : st.emailInProgress
  · simp [sendAlertEmail, h1]
  · by_cases h2 : now - st.lastEmailSendTime < emailCooldownMs
    · by_cases hsup : sup
      · simp [sendAlertEmail, h1, h2, hsup]
      · simp [sendAlertEmail, h1, h2, hsup]
    · by_cases h3 : env.videoPresent = false ∨ env.videoWidth = 0 ∨ env.videoHeight = 0
      · simp [sendAlertEmail, h1, h2, h3]
      · by_cases h4 : st.emails.length = 0
        · simp [sendAlertEmail, h1, h2, h3, h4]
        · by_cases h5 : env.ctxOk = false
          · simp [sendAlertEmail, h1, h2, h3, h4, h5]
          · cases hc : compressCanvasToBase64 env.enc (targetWidthOf env) (targetHeightOf env) 82 with
            | error e => simp [sendAlertEmail, h1, h2, h3, h4, h5, hc]
            | ok n =>
              by_cases h6 : env.transportOk
              · simp [sendAlertEmail, h1, h2, h3, h4, h5, hc, h6] at h
              · simp [sendAlertEmail, h1, h2, h3, h4, h5, hc, h6]

/-- C8: If two send requests are issued within 10 seconds of each other and
the first one succeeds, at most one delivery batch reaches the transport:
the second request makes zero transport calls and is rejected locally, with
the wait-time message shown exactly when the send is not alert-triggered
(`suppressCooldownWarning`); the cooldown clock is set only on success and
marks the start (`now` captured at entry) of the successful send, so a
failed send leaves the clock untouched and may be retried immediately. -/
theorem sendAlertEmail_cooldown_idempotent
    (env₁ env₂ : SendEnv) (st₀ : EmailState) (now₁ now₂ : Nat) (sup₁ sup₂ : Bool)
    (hsucc : (sendAlertEmail env₁ now₁ sup₁ st₀).2.succeeded = true)
    (hwin : now₂ - now₁ < emailCooldownMs) :
    ((sendAlertEmail env₂ now₂ sup₂ (sendAlertEmail env₁ now₁ sup₁ st₀).1).2.transportCalls = 0 ∧
      sendAlertEmail env₂ now₂ sup₂ (sendAlertEmail env₁ now₁ sup₁ st₀).1 =
        (if sup₂ then (sendAlertEmail env₁ now₁ sup₁ st₀).1
         else { (sendAlertEmail env₁ now₁ sup₁ st₀).1 with
                  emailError := some (cooldownMsg now₂ now₁) }, ⟨0, false⟩)) ∧
    (sendAlertEmail env₁ now₁ sup₁ st₀).1.lastEmailSendTime = now₁ ∧
    (∀ env now sup st, (sendAlertEmail env now sup st).2.succeeded = false →
      (sendAlertEmail env now sup st).1.lastEmailSendTime = st.lastEmailSendTime) := by
  obtain ⟨hl, hp⟩ := sendAlertEmail_success_marks_cooldown env₁ now₁ sup₁ st₀ hsucc
  have hcool : now₂ - (sendAlertEmail env₁ now₁ sup₁ st₀).1.lastEmailSendTime < emailCooldownMs := by
    rw [hl]; exact hwin
  refine ⟨⟨?_, ?_⟩, hl, fun env now sup st hf =>
    sendAlertEmail_failure_keeps_cooldown env now sup st hf⟩
  · generalize hst : (sendAlertEmail env₁ now₁ sup₁ st₀).1 = s1 at hp hcool ⊢
    simp [sendAlertEmail, hp, hcool]
  · generalize hst : (sendAlertEmail env₁ now₁ sup₁ st₀).1 = s1 at hl hp hcool ⊢
    rw [hl] at hcool
    simp [sendAlertEmail, hp, hl, hcool]

/-- Concrete send environment for the witnesses: a ready 560x420 camera, an
encoder producing a 100-character base64 string, a working transport. -/
def envGood : SendEnv :=
  { videoPresent := true, videoWidth := 560, videoHeight := 420, ctxOk := true,
    enc := fun _ _ _ => 100, transportOk := true, transportErrMsg := "" }

/-- Concrete email state for the witnesses: one recipient, nothing pending. -/
def emailStInit : EmailState :=
  { emails := ["a@b.c"], emailError := none, showEmailSentNotification := false,
    isSending := false, emailInProgress := false, lastEmailSendTime := 0 }

theorem scaleOf_envGood : scaleOf envGood = 1 := by
  norm_num [scaleOf, envGood, MAX_SCREENSHOT_WIDTH, MAX_SCREENSHOT_HEIGHT]

theorem targetWidthOf_envGood : targetWidthOf envGood = 560 := by
  unfold targetWidthOf
  rw [scaleOf_envGood]
  norm_num [jsRound, envGood]
  decide

theorem targetHeightOf_envGood : targetHeightOf envGood = 420 := by
  unfold targetHeightOf
  rw [scaleOf_envGood]
  norm_num [jsRound, envGood]
  decide

theorem compress_envGood : compressCanvasToBase64 envGood.enc 560 420 82 = .ok 75 := by
  unfold compressCanvasToBase64 qualitySweep
  norm_num [envGood, approxBytesOf, MAX_EMAILJS_VARIABLE_SIZE_BYTES, sizeSafetyMarginBytes]

theorem sendAlertEmail_envGood_succeeds :
    (sendAlertEmail envGood 20000 false emailStInit).2.succeeded = true := by
  unfold sendAlertEmail
  simp only [targetWidthOf_envGood, targetHeightOf_envGood, compress_envGood]
  simp [emailStInit, envGood, emailCooldownMs]

theorem sendAlertEmail_cooldown_idempotent_witness :
    (sendAlertEmail envGood 25000 false
        (sendAlertEmail envGood 20000 false emailStInit).1).2.transportCalls = 0 ∧
      (sendAlertEmail envGood 20000 false emailStInit).1.lastEmailSendTime = 20000 := by
  have h := sendAlertEmail_cooldown_idempotent envGood envGood emailStInit 20000 25000 false false
    sendAlertEmail_envGood_succeeds (by norm_num [emailCooldownMs])
  exact ⟨h.1.1, h.2.1⟩

/-- C10: Every run of the send routine that gets past the in-flight guard
leaves the in-flight guard and the sending flag cleared on every exit path
(success, compression failure, transport failure, and the precondition
rejections), so a failed send never leaves the guard stuck; and a request is
rejected by the in-flight guard, with no other effect, exactly when the
guard was set at entry (i.e. another send was in progress). -/
theorem sendAlertEmail_clears_inflight_on_exit (env : SendEnv) (now : Nat) (sup : Bool)
    (st : EmailState) (hp : st.emailInProgress = false) (hs : st.isSending = false) :
    (sendAlertEmail env now sup st).1.emailInProgress = false ∧
    (sendAlertEmail env now sup st).1.isSending = false ∧
    (∀ st2 : EmailState, st2.emailInProgress = true →
      sendAlertEmail env now sup st2 = (st2, ⟨0, false⟩)) := by
  have hmain : (sendAlertEmail env now sup st).1.emailInProgress = false ∧
      (sendAlertEmail env now sup st).1.isSending = false := by
    by_cases h2 : now - st.lastEmailSendTime < emailCooldownMs
    · by_cases hsup : sup
      · simp [sendAlertEmail, hp, h2, hsup, hs]
      · simp [sendAlertEmail, hp, h2, hsup, hs]
    · by_cases h3 : env.videoPresent = false ∨ env.videoWidth = 0 ∨ env.videoHeight = 0
      · simp [sendAlertEmail, hp, h2, h3, hs]
      · by_cases h4 : st.emails.length = 0
        · simp [sendAlertEmail, hp, h2, h3, h4, hs]
        · by_cases h5 : env.ctxOk = false
          · simp [sendAlertEmail, hp, h2, h3, h4, h5, hs]
          · cases hc : compressCanvasToBase64 env.enc (targetWidthOf env) (targetHeightOf env) 82 with
            | error e => simp [sendAlertEmail, hp, h2, h3, h4, h5, hc]
            | ok n =>
              by_cases h6 : env.transportOk
              · simp [sendAlertEmail, hp, h2, h3, h4, h5, hc, h6]
              · simp [sendAlertEmail, hp, h2, h3, h4, h5, hc, h6]
  exact ⟨hmain.1, hmain.2, fun st2 hst2 => by simp [sendAlertEmail, hst2]⟩

theorem sendAlertEmail_clears_inflight_witness :
    (sendAlertEmail envGood 20000 false emailStInit).1.emailInProgress = false ∧
    (sendAlertEmail envGood 20000 false emailStInit).1.isSending = false := by
  have h := sendAlertEmail_clears_inflight_on_exit envGood 20000 false emailStInit rfl rfl
  exact ⟨h.1, h.2.1⟩

/-- The three entries of the `operations` array in `activateMathChallenge`. -/
inductive MathOp
  | add
  | sub
  | mul
deriving DecidableEq

/-- The `symbol` field of an `operations` entry. -/
def MathOp.symbol : MathOp → String
  | .add => "+"
  | .sub => "-"
  | .mul => "*"

/-- The `compute` field of an `operations` entry. -/
def MathOp.compute : MathOp → ℤ → ℤ → ℤ
  | .add, a, b => a + b
  | .sub, a, b => a - b
  | .mul, a, b => a * b

/-- `operations[idx]` for `idx = Math.floor(Math.random() * operations.length)`;
for the in-range indices produced by `Math.random()` this is 0, 1 or 2. -/
def opOfIdx : Nat → MathOp
  | 0 => .add
  | 1 => .sub
  | _ => .mul

/-- The `mathChallenge` record `{question, answer}`. -/
structure Challenge where
  question : String
  answer : ℤ
deriving DecidableEq

/-- The three `Math.random()` draws consumed by `activateMathChallenge`. -/
structure ChalRand where
  rOp : ℚ
  rFirst : ℚ
  rSecond : ℚ

/-- `if (op.symbol === '-' && second > first) [first, second] = [second, first]`. -/
def orderOperands (op : MathOp) (first second : ℤ) : ℤ × ℤ :=
  if op = MathOp.sub ∧ first < second then (second, first) else (first, second)

/-- The challenge built by `activateMathChallenge`: operator drawn from the
`operations` array, `first = Math.floor(6 + Math.random() * 14)`,
`second = Math.floor(3 + Math.random() * 12)`, operands swapped for a
negative-avoiding subtraction, question string and exact answer. -/
def genChallenge (r : ChalRand) : Challenge :=
  let op := opOfIdx (Int.toNat ⌊r.rOp * 3⌋)
  let p := orderOperands op ⌊(6 : ℚ) + r.rFirst * 14⌋ ⌊(3 : ℚ) + r.rSecond * 12⌋
  { question := s!"{p.1} {op.symbol} {p.2}", answer := op.compute p.1 p.2 }

theorem orderOperands_swap {op : MathOp} {F S : ℤ} (h : op = MathOp.sub ∧ F < S) :
    orderOperands op F S = (S, F) := by
  unfold orderOperands
  rw [if_pos h]

theorem orderOperands_keep {op : MathOp} {F S : ℤ} (h : ¬(op = MathOp.sub ∧ F < S)) :
    orderOperands op F S = (F, S) := by
  unfold orderOperands
  rw [if_neg h]

/-- C9: Every generated math challenge has its first operand in 6..19, its
second operand in 3..14, an operator among add, subtract, multiply; for
subtraction the operands are ordered so the answer is non-negative; and the
stored answer equals the exact integer result of the stated operator applied
to the operands shown in the question string. -/
theorem genChallenge_well_formed (r : ChalRand)
    (h1 : 0 ≤ r.rOp) (h2 : r.rOp < 1) (h3 : 0 ≤ r.rFirst) (h4 : r.rFirst < 1)
    (h5 : 0 ≤ r.rSecond) (h6 : r.rSecond < 1) :
    ∃ (op : MathOp) (a b : ℤ),
      genChallenge r = { question := s!"{a} {op.symbol} {b}", answer := op.compute a b } ∧
      (op = MathOp.add ∨ op = MathOp.sub ∨ op = MathOp.mul) ∧
      6 ≤ a ∧ a ≤ 19 ∧ 3 ≤ b ∧ b ≤ 14 ∧
      (op = MathOp.sub → b ≤ a ∧ 0 ≤ op.compute a b) := by
  have hf1 : (6 : ℤ) ≤ ⌊(6 : ℚ) + r.rFirst * 14⌋ := by
    rw [Int.le_floor]
    push_cast
    nlinarith
  have hf2 : ⌊(6 : ℚ) + r.rFirst * 14⌋ ≤ 19 := by
    have hlt : ⌊(6 : ℚ) + r.rFirst * 14⌋ < 20 := by
      rw [Int.floor_lt]
      push_cast
      nlinarith
    omega
  have hs1 : (3 : ℤ) ≤ ⌊(3 : ℚ) + r.rSecond * 12⌋ := by
    rw [Int.le_floor]
    push_cast
    nlinarith
  have hs2 : ⌊(3 : ℚ) + r.rSecond * 12⌋ ≤ 14 := by
    have hlt : ⌊(3 : ℚ) + r.rSecond * 12⌋ < 15 := by
      rw [Int.floor_lt]
      push_cast
      nlinarith
    omega
  set op := opOfIdx (Int.toNat ⌊r.rOp * 3⌋) with hop
  have hops : op = MathOp.add ∨ op = MathOp.sub ∨ op = MathOp.mul := by
    rw [hop]
    cases hidx : Int.toNat ⌊r.rOp * 3⌋ with
    | zero => exact Or.inl rfl
    | succ m =>
      cases m with
      | zero => exact Or.inr (Or.inl rfl)
      | succ k => exact Or.inr (Or.inr rfl)
  by_cases hsw : op = MathOp.sub ∧ ⌊(6 : ℚ) + r.rFirst * 14⌋ < ⌊(3 : ℚ) + r.rSecond * 12⌋
  · refine ⟨op, ⌊(3 : ℚ) + r.rSecond * 12⌋, ⌊(6 : ℚ) + r.rFirst * 14⌋, ?_, hops,
      by omega, by omega, by omega, by omega, fun _ => ⟨by omega, ?_⟩⟩
    · have hE := orderOperands_swap hsw
      show genChallenge r = _
      simp only [genChallenge]
      rw [← hop, hE]
    · rw [hsw.1]
      show (0 : ℤ) ≤ _ - _
      omega
  · refine ⟨op, ⌊(6 : ℚ) + r.rFirst * 14⌋, ⌊(3 : ℚ) + r.rSecond * 12⌋, ?_, hops,
      by omega, by omega, by omega, by omega, fun hsub => ⟨?_, ?_⟩⟩
    · have hE := orderOperands_keep hsw
      show genChallenge r = _
      simp only [genChallenge]
      rw [← hop, hE]
    · have : ¬ ⌊(6 : ℚ) + r.rFirst * 14⌋ < ⌊(3 : ℚ) + r.rSecond * 12⌋ := fun hlt => hsw ⟨hsub, hlt⟩
      omega
    · have : ¬ ⌊(6 : ℚ) + r.rFirst * 14⌋ < ⌊(3 : ℚ) + r.rSecond * 12⌋ := fun hlt => hsw ⟨hsub, hlt⟩
      rw [hsub]
      show (0 : ℤ) ≤ _ - _
      omega

theorem genChallenge_well_formed_witness :
    ∃ (op : MathOp) (a b : ℤ),
      genChallenge ⟨0, 0, 0⟩ = { question := s!"{a} {op.symbol} {b}", answer := op.compute a b } ∧
      (op = MathOp.add ∨ op = MathOp.sub ∨ op = MathOp.mul) ∧
      6 ≤ a ∧ a ≤ 19 ∧ 3 ≤ b ∧ b ≤ 14 ∧
      (op = MathOp.sub → b ≤ a ∧ 0 ≤ op.compute a b) :=
  genChallenge_well_formed ⟨0, 0, 0⟩ (by norm_num) (by norm_num) (by norm_num)
    (by norm_num) (by norm_num) (by norm_num)

/-- The `clapStatus` union type. -/
inductive ClapStatus
  | initializing
  | listening
  | detected
  | countdown
  | alerted
  | error
deriving DecidableEq

/-- The controller-relevant `useState`/`useRef` cells of the component.
`countdownActive` stands for the pair `countdownActiveRef`/`countdownActive`,
which the source always writes together; `mathRequired`/`mathSolved` are
`mathRequiredRef`/`mathSolvedRef`; `lastDetectionTime` is
`lastDetectionTimeRef` (milliseconds, `Date.now()` clock). -/
structure AppState where
  clapStatus : ClapStatus
  isFlashing : Bool
  countdownActive : Bool
  countdownSeconds : Nat
  alertActive : Bool
  mathChallenge : Option Challenge
  mathAnswerInput : String
  mathError : Option String
  mathRequired : Bool
  mathSolved : Bool
  lastDetectionTime : Nat
  email : EmailState
deriving DecidableEq

/-- `cancelCountdown`. -/
def cancelCountdown (st : AppState) : AppState :=
  if st.countdownActive = false then st
  else if st.mathRequired = true ∧ st.mathSolved = false then st
  else
    { st with
      countdownActive := false, countdownSeconds := 0,
      clapStatus := if st.alertActive then st.clapStatus else ClapStatus.listening,
      isFlashing := if st.alertActive then st.isFlashing else false,
      mathRequired := false, mathSolved := false, mathChallenge := none,
      mathAnswerInput := "", mathError := none }

/-- `activateMathChallenge`: guarded by `mathRequiredRef`, then publishes the
generated challenge and flips the required/solved flags. -/
def activateMathChallenge (r : ChalRand) (st : AppState) : AppState :=
  if st.mathRequired = true then st
  else
    { st with
      mathChallenge := some (genChallenge r), mathAnswerInput := "",
      mathError := none, mathRequired := true, mathSolved := false }

/-- `handleMathSubmit`.  `parsed` is the value of `Number(trimmed)` when that
is a finite number, `none` otherwise. -/
def handleMathSubmit (raw : String) (parsed : Option ℚ) (st : AppState) : AppState :=
  match st.mathChallenge with
  | none => st
  | some ch =>
    if raw.trim = "" then { st with mathError := some "please enter an answer." }
    else
      match parsed with
      | none => { st with mathError := some "answer must be a number." }
      | some q =>
        if q = (ch.answer : ℚ) then
          cancelCountdown { st with mathSolved := true, mathError := none }
        else { st with mathError := some "incorrect answer. try again." }

/-- `handleCountdownFinish`: clears all countdown/challenge state, then
escalates to the alert (attempting an email with the cooldown warning
suppressed) iff a gesture was seen within the last 1500ms or the challenge
was required and left unsolved; otherwise returns to listening.  The second
component records whether `sendAlertEmail` was invoked and its outcome. -/
def handleCountdownFinish (env : SendEnv) (now : Nat) (st : AppState) :
    AppState × Option SendResult :=
  if st.countdownActive = false then (st, none)
  else
    let mathFailed := st.mathRequired = true ∧ st.mathSolved = false
    let st1 : AppState := { st with
      countdownActive := false, countdownSeconds := 0,
      mathRequired := false, mathSolved := false, mathChallenge := none,
      mathAnswerInput := "", mathError := none }
    if now - st.lastDetectionTime ≤ 1500 ∨ mathFailed then
      let st2 : AppState :=
        { st1 with clapStatus := ClapStatus.alerted, alertActive := true, isFlashing := true }
      let res := sendAlertEmail env now true st2.email
      ({ st2 with email := res.1 }, some res.2)
    else
      ({ st1 with clapStatus := ClapStatus.listening, isFlashing := false }, none)

/-- `startCountdown`: refused while already counting down or alerted. -/
def startCountdown (st : AppState) : AppState :=
  if st.countdownActive = true ∨ st.alertActive = true then st
  else
    { st with
      countdownActive := true, countdownSeconds := 10,
      clapStatus := ClapStatus.countdown, mathRequired := false, mathSolved := false,
      mathChallenge := none, mathAnswerInput := "", mathError := none }

/-- One firing of the one-second countdown interval callback: guarded by the
live `countdownActiveRef` flag, finishing at `prevSeconds <= 1`, invoking the
challenge generator when `prevSeconds === 8`, else decrementing. -/
def countdownTick (env : SendEnv) (now : Nat) (r : ChalRand) (st : AppState) :
    AppState × Option SendResult :=
  if st.countdownActive = false then (st, none)
  else if st.countdownSeconds ≤ 1 then handleCountdownFinish env now st
  else
    let st1 := if st.countdownSeconds = 8 then activateMathChallenge r st else st
    ({ st1 with countdownSeconds := st.countdownSeconds - 1 }, none)

/-- `handleClapDetection`: records the detection time first, then returns
early when an alert is active, else flashes and starts or refreshes the
countdown.  (The 1800ms timeout it schedules is `flashTimeoutFire`.) -/
def handleClapDetection (now : Nat) (st : AppState) : AppState :=
  let st0 : AppState := { st with lastDetectionTime := now }
  if st0.alertActive = true then st0
  else
    let st1 : AppState := { st0 with isFlashing := true }
    if st1.countdownActive = true then { st1 with clapStatus := ClapStatus.countdown }
    else startCountdown { st1 with clapStatus := ClapStatus.detected }

/-- The body of the 1800ms timeout scheduled by `handleClapDetection`,
fired at clock reading `now`: on more than 1500ms of gesture silence it
cancels the countdown (or just stops flashing when no countdown runs). -/
def flashTimeoutFire (now : Nat) (st : AppState) : AppState :=
  if 1500 < now - st.lastDetectionTime then
    if st.countdownActive = true then cancelCountdown st
    else { st with isFlashing := false, clapStatus := ClapStatus.listening }
  else st

/-- The body of the 6000ms alert auto-clear timeout. -/
def alertClearFire (st : AppState) : AppState :=
  { st with alertActive := false, isFlashing := false, clapStatus := ClapStatus.listening }

/-- The initial component state. -/
def initAppState : AppState :=
  { clapStatus := ClapStatus.initializing, isFlashing := false, countdownActive := false,
    countdownSeconds := 0, alertActive := false, mathChallenge := none,
    mathAnswerInput := "", mathError := none, mathRequired := false, mathSolved := false,
    lastDetectionTime := 0,
    email := { emails := [], emailError := none, showEmailSentNotification := false,
               isSending := false, emailInProgress := false, lastEmailSendTime := 0 } }

/-- The externally triggered events of the controller. -/
inductive AppEvent where
  | clap (now : Nat)
  | tick (env : SendEnv) (now : Nat) (r : ChalRand)
  | flashTimeout (now : Nat)
  | mathSubmit (raw : String) (parsed : Option ℚ)
  | alertClear
  | sendRequest (env : SendEnv) (now : Nat) (suppress : Bool)
  | micReady
  | micFail

/-- The transition function of the controller. -/
def stepEvent : AppEvent → AppState → AppState
  | .clap now, st => handleClapDetection now st
  | .tick env now r, st => (countdownTick env now r st).1
  | .flashTimeout now, st => flashTimeoutFire now st
  | .mathSubmit raw parsed, st => handleMathSubmit raw parsed st
  | .alertClear, st => alertClearFire st
  | .sendRequest env now sup, st => { st with email := (sendAlertEmail env now sup st.email).1 }
  | .micReady, st => { st with clapStatus := ClapStatus.listening }
  | .micFail, st => { st with clapStatus := ClapStatus.error }

/-- States reachable from the initial state through controller events. -/
inductive ReachableApp : AppState → Prop
  | init : ReachableApp initAppState
  | step (e : AppEvent) (st : AppState) : ReachableApp st → ReachableApp (stepEvent e st)

/-- C1: When the countdown timer reaches 0 (with the countdown still active
and no alert yet), the controller transitions to alerted — and attempts an
email — if and only if a gesture was detected within the last 1500ms or a
challenge was required and left unsolved; otherwise it returns to listening
silently, with no alert raised, no flashing, and no email attempt. -/
theorem handleCountdownFinish_alert_iff (env : SendEnv) (now : Nat) (st : AppState)
    (hc : st.countdownActive = true) (ha : st.alertActive = false) :
    (((handleCountdownFinish env now st).1.clapStatus = ClapStatus.alerted ∧
        (handleCountdownFinish env now st).1.alertActive = true ∧
        (handleCountdownFinish env now st).2.isSome = true) ↔
      (now - st.lastDetectionTime ≤ 1500 ∨
        (st.mathRequired = true ∧ st.mathSolved = false))) ∧
    (¬(now - st.lastDetectionTime ≤ 1500 ∨
        (st.mathRequired = true ∧ st.mathSolved = false)) →
      (handleCountdownFinish env now st).1.clapStatus = ClapStatus.listening ∧
      (handleCountdownFinish env now st).1.alertActive = false ∧
      (handleCountdownFinish env now st).1.isFlashing = false ∧
      (handleCountdownFinish env now st).2 = none) := by
  have hne : ¬(st.countdownActive = false) := by simp [hc]
  by_cases hcond : now - st.lastDetectionTime ≤ 1500 ∨
      (st.mathRequired = true ∧ st.mathSolved = false)
  · simp only [handleCountdownFinish]
    rw [if_neg hne, if_pos hcond]
    exact ⟨iff_of_true ⟨rfl, rfl, rfl⟩ hcond, fun hn => absurd hcond hn⟩
  · simp only [handleCountdownFinish]
    rw [if_neg hne, if_neg hcond]
    exact ⟨iff_of_false (fun hL => ClapStatus.noConfusion hL.1) hcond,
      fun _ => ⟨rfl, ha, rfl, rfl⟩⟩

/-- Concrete countdown state about to expire with no recent gesture and no
pending challenge. -/
def stSilentExpiry : AppState :=
  { initAppState with clapStatus := ClapStatus.countdown, countdownActive := true,
                      countdownSeconds := 1 }

theorem handleCountdownFinish_alert_iff_witness :
    (((handleCountdownFinish envGood 10000 stSilentExpiry).1.clapStatus = ClapStatus.alerted ∧
        (handleCountdownFinish envGood 10000 stSilentExpiry).1.alertActive = true ∧
        (handleCountdownFinish envGood 10000 stSilentExpiry).2.isSome = true) ↔
      (10000 - stSilentExpiry.lastDetectionTime ≤ 1500 ∨
        (stSilentExpiry.mathRequired = true ∧ stSilentExpiry.mathSolved = false))) ∧
    (¬(10000 - stSilentExpiry.lastDetectionTime ≤ 1500 ∨
        (stSilentExpiry.mathRequired = true ∧ stSilentExpiry.mathSolved = false)) →
      (handleCountdownFinish envGood 10000 stSilentExpiry).1.clapStatus = ClapStatus.listening ∧
      (handleCountdownFinish envGood 10000 stSilentExpiry).1.alertActive = false ∧
      (handleCountdownFinish envGood 10000 stSilentExpiry).1.isFlashing = false ∧
      (handleCountdownFinish envGood 10000 stSilentExpiry).2 = none) :=
  handleCountdownFinish_alert_iff envGood 10000 stSilentExpiry rfl rfl

/-- C3: For every countdown in which a challenge has been required and is
not yet solved, the gesture-silence auto-cancel path (the 1800ms timeout
observing more than 1500ms of silence) leaves the state — in particular the
running countdown — completely unchanged, and `cancelCountdown` itself is a
no-op: silence alone cannot cancel until the challenge is resolved. -/
theorem silence_cannot_cancel_pending_challenge (now : Nat) (st : AppState)
    (hc : st.countdownActive = true) (hr : st.mathRequired = true)
    (hs : st.mathSolved = false) :
    flashTimeoutFire now st = st ∧ (flashTimeoutFire now st).countdownActive = true ∧
    cancelCountdown st = st := by
  have hcc : cancelCountdown st = st := by
    unfold cancelCountdown
    rw [if_neg (by simp [hc]), if_pos ⟨hr, hs⟩]
  have hft : flashTimeoutFire now st = st := by
    unfold flashTimeoutFire
    by_cases hsil : 1500 < now - st.lastDetectionTime
    · rw [if_pos hsil, if_pos hc, hcc]
    · rw [if_neg hsil]
  exact ⟨hft, by rw [hft]; exact hc, hcc⟩

/-- Concrete countdown state with a required, unsolved challenge. -/
def stPendingChallenge : AppState :=
  { initAppState with clapStatus := ClapStatus.countdown, countdownActive := true,
                      countdownSeconds := 5, mathRequired := true,
                      mathChallenge := some (genChallenge ⟨0, 0, 0⟩) }

theorem silence_cannot_cancel_pending_challenge_witness :
    flashTimeoutFire 999999 stPendingChallenge = stPendingChallenge ∧
    (flashTimeoutFire 999999 stPendingChallenge).countdownActive = true ∧
    cancelCountdown stPendingChallenge = stPendingChallenge :=
  silence_cannot_cancel_pending_challenge 999999 stPendingChallenge rfl rfl rfl

/-- Concrete alerted state for the C5 counterexample. -/
def stAlerted : AppState :=
  { initAppState with clapStatus := ClapStatus.alerted, alertActive := true,
                      isFlashing := true }

/-- C5 counterexample: during an active alert a gesture-detected event is
not ignored entirely — it mutates the controller state (the recorded
last-detection timestamp changes from 0 to 5). -/
theorem handleClapDetection_mutates_during_alert :
    handleClapDetection 5 stAlerted ≠ stAlerted := by
  decide

/-- C5 (amended): while the alert state is active, a gesture-detected event
updates the recorded last-detection timestamp (which the source writes
before its alert guard) but changes nothing else: no countdown is started,
no status/flash/challenge change occurs, and the alert flag is untouched. -/
theorem handleClapDetection_only_timestamp_during_alert (now : Nat) (st : AppState)
    (ha : st.alertActive = true) :
    handleClapDetection now st = { st with lastDetectionTime := now } := by
  simp [handleClapDetection, ha]

theorem handleClapDetection_only_timestamp_during_alert_witness :
    handleClapDetection 7 stAlerted = { stAlerted with lastDetectionTime := 7 } :=
  handleClapDetection_only_timestamp_during_alert 7 stAlerted rfl

theorem activateMathChallenge_countdownActive (r : ChalRand) (st : AppState) :
    (activateMathChallenge r st).countdownActive = st.countdownActive := by
  unfold activateMathChallenge
  split_ifs <;> rfl

theorem activateMathChallenge_alertActive (r : ChalRand) (st : AppState) :
    (activateMathChallenge r st).alertActive = st.alertActive := by
  unfold activateMathChallenge
  split_ifs <;> rfl

theorem cancelCountdown_alertActive (st : AppState) :
    (cancelCountdown st).alertActive = st.alertActive := by
  unfold cancelCountdown
  split_ifs <;> rfl

theorem cancelCountdown_countdownActive (st : AppState) :
    (cancelCountdown st).countdownActive = true → st.countdownActive = true := by
  unfold cancelCountdown
  split_ifs
  · exact id
  · exact id
  · intro h
    exact absurd h (by simp)

theorem handleCountdownFinish_not_counting (env : SendEnv) (now : Nat) (st : AppState) :
    (handleCountdownFinish env now st).1.countdownActive = false := by
  simp only [handleCountdownFinish]
  split_ifs with h1 h2
  · exact h1
  · rfl
  · rfl

theorem handleClapDetection_alertActive (now : Nat) (st : AppState) :
    (handleClapDetection now st).alertActive = st.alertActive := by
  simp only [handleClapDetection, startCountdown]
  split_ifs <;> rfl

theorem handleMathSubmit_alertActive (raw : String) (parsed : Option ℚ) (st : AppState) :
    (handleMathSubmit raw parsed st).alertActive = st.alertActive := by
  rcases hmc : st.mathChallenge with _ | ch
  · simp only [handleMathSubmit, hmc]
  · rcases parsed with _ | q
    · simp only [handleMathSubmit, hmc]
      split_ifs <;> rfl
    · simp only [handleMathSubmit, hmc]
      split_ifs with h1 h3
      · rfl
      · exact cancelCountdown_alertActive _
      · rfl

theorem handleMathSubmit_countdownActive (raw : String) (parsed : Option ℚ) (st : AppState) :
    (handleMathSubmit raw parsed st).countdownActive = true → st.countdownActive = true := by
  rcases hmc : st.mathChallenge with _ | ch
  · simp only [handleMathSubmit, hmc]
    exact fun h => h
  · rcases parsed with _ | q
    · simp only [handleMathSubmit, hmc]
      split_ifs <;> exact fun h => h
    · simp only [handleMathSubmit, hmc]
      split_ifs with h1 h3
      · exact fun h => h
      · exact fun h => cancelCountdown_countdownActive
          { st with mathChallenge := some ch, mathError := none, mathSolved := true } h
      · exact fun h => h

/-- C2: In every reachable state of the controller, the countdown-active and
alert-active flags are never both true: countdowns are refused while an
alert is active, and escalation clears the countdown flag before raising the
alert flag. -/
theorem countdown_and_alert_never_both_active (st : AppState) (h : ReachableApp st) :
    ¬(st.countdownActive = true ∧ st.alertActive = true) := by
  induction h with
  | init => simp [initAppState]
  | step e st hr ih =>
    cases e with
    | clap now =>
      intro hc
      have hA := handleClapDetection_alertActive now st
      have ha : st.alertActive = true := by rw [← hA]; exact hc.2
      have hcd : (handleClapDetection now st).countdownActive = st.countdownActive := by
        simp [handleClapDetection, ha]
      exact ih ⟨by rw [← hcd]; exact hc.1, ha⟩
    | tick env now r =>
      intro hc
      by_cases h1 : st.countdownActive = false
      · have heq : (countdownTick env now r st).1 = st := by
          simp [countdownTick, h1]
        rw [stepEvent] at hc
        rw [heq] at hc
        exact ih hc
      · by_cases h2 : st.countdownSeconds ≤ 1
        · have hfin : (countdownTick env now r st).1 =
              (handleCountdownFinish env now st).1 := by
            simp only [countdownTick]
            rw [if_neg h1, if_pos h2]
          rw [stepEvent, hfin] at hc
          rw [handleCountdownFinish_not_counting env now st] at hc
          exact absurd hc.1 (by simp)
        · have hcd : (countdownTick env now r st).1.countdownActive = st.countdownActive := by
            simp only [countdownTick]
            rw [if_neg h1, if_neg h2]
            show (if st.countdownSeconds = 8 then activateMathChallenge r st
              else st).countdownActive = st.countdownActive
            split_ifs with h8
            · exact activateMathChallenge_countdownActive r st
            · rfl
          have hal : (countdownTick env now r st).1.alertActive = st.alertActive := by
            simp only [countdownTick]
            rw [if_neg h1, if_neg h2]
            show (if st.countdownSeconds = 8 then activateMathChallenge r st
              else st).alertActive = st.alertActive
            split_ifs with h8
            · exact activateMathChallenge_alertActive r st
            · rfl
          rw [stepEvent] at hc
          rw [hcd, hal] at hc
          exact ih hc
    | flashTimeout now =>
      intro hc
      rw [stepEvent] at hc
      unfold flashTimeoutFire at hc
      split_ifs at hc with hs1 hs2
      · exact ih ⟨cancelCountdown_countdownActive st hc.1,
          by rw [← cancelCountdown_alertActive st]; exact hc.2⟩
      · exact ih hc
      · exact ih hc
    | mathSubmit raw parsed =>
      intro hc
      rw [stepEvent] at hc
      exact ih ⟨handleMathSubmit_countdownActive raw parsed st hc.1,
        by rw [← handleMathSubmit_alertActive raw parsed st]; exact hc.2⟩
    | alertClear =>
      intro hc
      rw [stepEvent] at hc
      exact absurd hc.2 (by simp [alertClearFire])
    | sendRequest env now sup =>
      intro hc
      exact ih hc
    | micReady =>
      intro hc
      exact ih hc
    | micFail =>
      intro hc
      exact ih hc

theorem countdown_and_alert_never_both_active_witness :
    ¬(initAppState.countdownActive = true ∧ initAppState.alertActive = true) :=
  countdown_and_alert_never_both_active initAppState ReachableApp.init

/-- The state after `i` firings of the countdown interval, starting from a
fresh `startCountdown`. -/
def countdownTrace (env : SendEnv) (now : Nat) (r : ChalRand) (st : AppState) (i : Nat) :
    AppState :=
  (fun s => (countdownTick env now r s).1)^[i] (startCountdown st)

/-- C4: During every countdown instance the challenge generator is invoked
exactly once, at the unique tick that observes the counter at 8 (two
decrements after the start at 10): through the first 9 ticks the counter is
exactly `10 - i`, the challenge-required flag holds from the third tick on,
and the published challenge is the one generated at that single invocation,
unchanged by the later ticks — the invocation is interleaved at a fixed
position among the one-second decrements. -/
theorem challenge_invoked_once_at_second_eight (env : SendEnv) (now : Nat) (r : ChalRand)
    (st : AppState) (hc : st.countdownActive = false) (ha : st.alertActive = false) :
    ∀ i, i ≤ 9 →
      (countdownTrace env now r st i).countdownSeconds = 10 - i ∧
      (countdownTrace env now r st i).mathRequired = decide (3 ≤ i) ∧
      (countdownTrace env now r st i).mathChallenge =
        (if 3 ≤ i then some (genChallenge r) else none) := by
  have key : ∀ i, i ≤ 9 →
      countdownTrace env now r st i =
        { st with
          clapStatus := ClapStatus.countdown, countdownActive := true,
          countdownSeconds := 10 - i,
          mathChallenge := if 3 ≤ i then some (genChallenge r) else none,
          mathAnswerInput := "", mathError := none,
          mathRequired := decide (3 ≤ i), mathSolved := false } := by
    have hstep : ∀ j, countdownTrace env now r st (j + 1) =
        (countdownTick env now r (countdownTrace env now r st j)).1 := by
      intro j
      unfold countdownTrace
      rw [Function.iterate_succ_apply']
    intro i
    induction i with
    | zero =>
      intro _
      show startCountdown st = _
      unfold startCountdown
      rw [if_neg (by simp [hc, ha])]
      simp
    | succ i ih =>
      intro hi9
      have hR := ih (by omega)
      rw [hstep i, hR]
      have h2 : ¬(10 - i ≤ 1) := by omega
      by_cases hi2 : i = 2
      · subst hi2
        simp [countdownTick, activateMathChallenge]
      · have h8 : ¬(10 - i = 8) := by omega
        have hsec : 10 - i - 1 = 10 - (i + 1) := by omega
        have hmr : (decide (3 ≤ i) : Bool) = decide (3 ≤ i + 1) := by
          by_cases h3 : 3 ≤ i
          · simp [h3, Nat.le_succ_of_le h3]
          · have h3s : ¬(3 ≤ i + 1) := by omega
            simp [h3, h3s]
        have hch : (if 3 ≤ i then some (genChallenge r) else none) =
            (if 3 ≤ i + 1 then some (genChallenge r) else none) := by
          by_cases h3 : 3 ≤ i
          · rw [if_pos h3, if_pos (Nat.le_succ_of_le h3)]
          · have h3s : ¬(3 ≤ i + 1) := by omega
            rw [if_neg h3, if_neg h3s]
        simp [countdownTick, h2, h8, hsec, hmr, hch]
  intro i hi
  rw [key i hi]
  exact ⟨rfl, rfl, rfl⟩

theorem challenge_invoked_once_at_second_eight_witness :
    (countdownTrace envGood 0 ⟨0, 0, 0⟩ initAppState 3).countdownSeconds = 10 - 3 ∧
    (countdownTrace envGood 0 ⟨0, 0, 0⟩ initAppState 3).mathRequired = decide (3 ≤ 3) ∧
    (countdownTrace envGood 0 ⟨0, 0, 0⟩ initAppState 3).mathChallenge =
      (if 3 ≤ 3 then some (genChallenge ⟨0, 0, 0⟩) else none) :=
  challenge_invoked_once_at_second_eight envGood 0 ⟨0, 0, 0⟩ initAppState rfl rfl 3
    (by norm_num)

/-- Consecutive inter-pulse intervals (`recent[i] - recent[i-1]`). -/
def intervalsOf : List ℚ → List ℚ
  | a :: b :: rest => (b - a) :: intervalsOf (b :: rest)
  | _ => []

/-- The pulse-registration branch of `detectRhythmicClapping` (the body of
the peak-acceptance `if`): push the new pulse timestamp, trim the log to
capacity 8 (oldest evicted), keep the pulses of the last 1400ms, and when at
least 4 remain, classify the last (up to) 4 consecutive intervals — at least
3 of them — as rhythmic clapping iff their mean lies in [260, 520] and
their standard deviation is at most 55.  The source compares
`Math.sqrt(variance) <= 55`, which for the nonnegative variance equals the
`variance <= 55 ^ 2` comparison used here.  The Bool records whether the
gesture-detected callback (`handleClapDetection`) fires. -/
def registerPulse (clapTimes : List ℚ) (now : ℚ) : List ℚ × Bool :=
  let pushed := clapTimes ++ [now]
  let times := pushed.drop (pushed.length - 8)
  let recent := times.filter (fun t => now - t ≤ 1400)
  if 4 ≤ recent.length then
    let intervals := intervalsOf recent
    let lastIntervals := intervals.drop (intervals.length - 4)
    if 3 ≤ lastIntervals.length then
      let average := lastIntervals.sum / (lastIntervals.length : ℚ)
      let variance :=
        (lastIntervals.map (fun x => (x - average) ^ 2)).sum / (lastIntervals.length : ℚ)
      if 260 ≤ average ∧ average ≤ 520 ∧ variance ≤ 55 ^ 2 then (times, true)
      else (times, false)
    else (times, false)
  else (times, false)

/-- Feed a sequence of registered pulse timestamps through the detector,
collecting for each pulse whether the gesture-detected callback fired. -/
def runPulses (times : List ℚ) : List Bool :=
  (times.foldl (fun acc t =>
    ((registerPulse acc.1 t).1, acc.2 ++ [(registerPulse acc.1 t).2]))
    (([] : List ℚ), ([] : List Bool))).2

/-- C6: Four registered pulses at exactly 300ms intervals (mean 300,
standard deviation 0) classify as rhythmic clapping and fire the
gesture-detected callback on the fourth pulse; pulses at intervals
[260, 520, 260, 520] never fire it, since the recent-interval mean/standard
deviation test (mean in [260, 520], standard deviation at most 55 over the
pulses of the last 1400ms) fails at every step. -/
theorem rhythm_classification_boundary :
    runPulses [0, 300, 600, 900] = [false, false, false, true] ∧
    runPulses [0, 260, 780, 1040, 1560] = [false, false, false, false, false] := by
  constructor
  · norm_num [runPulses, registerPulse, intervalsOf]
  · norm_num [runPulses, registerPulse, intervalsOf]
